import Mathlib

/-!
Shallow embedding of the local-share repository's core:
the signaling server registry and relay (src/server.js),
the peer-connection managers (src/lib/device-discovery.ts,
src/lib/simple-networking.ts) and the chunked file-transfer
protocol (src/lib/webrtc-manager.ts sendFile and the receiver
handlers in device-discovery.ts).

Bytes are modelled as `Nat`, byte buffers as `List Nat`,
JavaScript `Map<string, V>` as an association list with
overwrite-on-set semantics, and JS number division for the
progress value as rational division (the one divergence, at
totalSize = 0, is noted where it matters: JS produces NaN and
the rational model produces 0 — under both, the value is not 100).
-/

namespace LocalShare

/-- Association-list embedding of a JS `Map<string, V>`:
`get`, overwrite `set`, and `delete`. -/
def aGet {α : Type} (m : List (String × α)) (k : String) : Option α :=
  (m.find? (fun p => p.1 == k)).map (fun p => p.2)

def aErase {α : Type} (m : List (String × α)) (k : String) : List (String × α) :=
  m.filter (fun p => !(p.1 == k))

def aSet {α : Type} (m : List (String × α)) (k : String) (v : α) : List (String × α) :=
  (k, v) :: aErase m k

theorem aGet_aSet_self {α : Type} (m : List (String × α)) (k : String) (v : α) :
    aGet (aSet m k v) k = some v := by
  simp [aGet, aSet, List.find?]

theorem aErase_aSet_self {α : Type} (m : List (String × α)) (k : String) (v : α) :
    aErase (aSet m k v) k = aErase m k := by
  simp [aSet, aErase, List.filter_filter]

theorem aSet_aSet_self {α : Type} (m : List (String × α)) (k : String) (v w : α) :
    aSet (aSet m k v) k w = aSet m k w := by
  simp [aSet, aErase, List.filter_filter]

/-! ## Wire protocol messages on the data channel

The sender (webrtc-manager.ts `sendFile`) emits a JSON
`{type: 'file-start', name, size, mimeType}` control message, then raw
binary chunks, then `{type: 'file-end'}`.  The receiver
(device-discovery.ts `handleDataChannelMessage`) dispatches on exactly
these tags, with a default branch for any other string message. -/

inductive WireMsg : Type
  /-- the `file-start` control message with name, size, mimeType -/
  | fileStart (name : String) (size : Nat) (mimeType : String)
  /-- a raw binary chunk (an ArrayBuffer on the wire) -/
  | chunk (bytes : List Nat)
  /-- the `file-end` control message -/
  | fileEnd
  /-- any other string message (falls into the receiver's default branch) -/
  | other
  deriving DecidableEq

def WireMsg.isChunk : WireMsg → Bool
  | .chunk _ => true
  | _ => false

def WireMsg.isFileStart : WireMsg → Bool
  | .fileStart _ _ _ => true
  | _ => false

def WireMsg.isFileEnd : WireMsg → Bool
  | .fileEnd => true
  | _ => false

/-! ## Sender (src/lib/webrtc-manager.ts, `sendFile`, lines 116-190)

```
const CHUNK_SIZE = 16384
this.sendMessage({ type: 'file-start', name, size, mimeType })
const sendChunk = () => { const slice = file.slice(offset, offset + CHUNK_SIZE); ... }
reader.onload: send(chunk); offset += CHUNK_SIZE;
               if (offset < file.size) sendChunk() else sendMessage({type:'file-end'})
sendChunk()  // start: the first chunk is sent unconditionally
```

`file.slice(offset, offset + CHUNK_SIZE)` is `(file.drop offset).take CHUNK_SIZE`.
Note the loop sends one chunk before testing `offset < file.size`, so an
empty file still produces one (empty) binary chunk message. -/

def CHUNK_SIZE : Nat := 16384

/-- The successive binary chunk payloads emitted by the sender loop,
starting from byte offset `offset`. -/
def senderChunks (file : List Nat) (offset : Nat) : List (List Nat) :=
  let c := (file.drop offset).take CHUNK_SIZE
  if offset + CHUNK_SIZE < file.length then
    c :: senderChunks file (offset + CHUNK_SIZE)
  else
    [c]
termination_by file.length - offset
decreasing_by
  have hc : 0 < CHUNK_SIZE := by decide
  omega

/-- Full ordered message sequence emitted by `WebRTCManager.sendFile`. -/
def sendFile (file : List Nat) (name mimeType : String) : List WireMsg :=
  WireMsg.fileStart name file.length mimeType ::
    ((senderChunks file 0).map WireMsg.chunk ++ [WireMsg.fileEnd])

/-! ## Receiver (src/lib/device-discovery.ts, lines 383-491)

State: the `fileTransfers: Map<string, {fileName, totalSize, mimeType,
chunks, receivedSize}>` keyed by the sending device's id.  The handlers
emit `onFileTransferProgress` and `onFileReceived` callback events; the
receiving paths only ever `console.error` on failure — they never invoke
the `onError` handler (only the data-channel-error and socket-error
paths do), which the `errorEv` constructor below makes checkable. -/

structure Transfer where
  fileName : String
  totalSize : Nat
  mimeType : String
  chunks : List (List Nat)
  receivedSize : Nat
  deriving DecidableEq

/-- The `ReceivedFile` handed to `onFileReceived` (the `blob`/`url`/
`receivedAt` runtime objects are represented by the byte content;
`size` is the field the code fills from `transfer.totalSize`). -/
structure ReceivedFile where
  name : String
  size : Nat
  mimeType : String
  bytes : List Nat
  fromDevice : String
  deriving DecidableEq

inductive RecvEvent : Type
  /-- an `onFileTransferProgress` callback -/
  | progressEv (deviceId fileName : String) (totalSize receivedSize : Nat)
      (progress : ℚ)
  /-- an `onFileReceived` callback -/
  | fileReceivedEv (deviceId : String) (file : ReceivedFile)
  /-- an `onError` callback (never produced by the receiving handlers) -/
  | errorEv (message : String)

def RecvEvent.isFileReceived : RecvEvent → Bool
  | .fileReceivedEv _ _ => true
  | _ => false

def RecvEvent.isError : RecvEvent → Bool
  | .errorEv _ => true
  | _ => false

def RecvEvent.receivedBytes : RecvEvent → Option (List Nat)
  | .fileReceivedEv _ f => some f.bytes
  | _ => none

/-- Receiver-side state: the `fileTransfers` map. -/
abbrev RecvState : Type := List (String × Transfer)

/-- `handleFileChunk` (device-discovery.ts lines 430-453): if no transfer
is in progress the chunk is dropped with only a `console.error`; otherwise
the chunk is pushed, `receivedSize` accumulated, and a progress event with
`progress = (receivedSize / totalSize) * 100` is emitted.  There is no
check against `totalSize`. -/
def handleFileChunk (st : RecvState) (deviceId : String) (chunk : List Nat) :
    RecvState × List RecvEvent :=
  match aGet st deviceId with
  | none => (st, [])
  | some t =>
    let t2 : Transfer :=
      { t with chunks := t.chunks ++ [chunk],
               receivedSize := t.receivedSize + chunk.length }
    let progress : ℚ := ((t2.receivedSize : ℚ) / (t.totalSize : ℚ)) * 100
    (aSet st deviceId t2,
     [RecvEvent.progressEv deviceId t.fileName t.totalSize t2.receivedSize progress])

/-- `reconstructFile` (device-discovery.ts lines 455-491): concatenates the
buffered chunks in arrival order into the blob, emits `onFileReceived`
with `size := transfer.totalSize` (the size declared in `file-start`,
not the blob's actual byte count), then deletes the map entry. -/
def reconstructFile (st : RecvState) (deviceId : String) :
    RecvState × List RecvEvent :=
  match aGet st deviceId with
  | none => (st, [])
  | some t =>
    (aErase st deviceId,
     [RecvEvent.fileReceivedEv deviceId
        { name := t.fileName, size := t.totalSize, mimeType := t.mimeType,
          bytes := t.chunks.flatten, fromDevice := deviceId }])

/-- `handleDataChannelMessage` (device-discovery.ts lines 383-428):
on `file-start`, unconditionally overwrite the `fileTransfers` entry with
a fresh transfer and emit a 0% progress event; on `file-end`, reconstruct;
on any other string message, just log; on binary data, `handleFileChunk`. -/
def handleDataChannelMessage (st : RecvState) (deviceId : String)
    (msg : WireMsg) : RecvState × List RecvEvent :=
  match msg with
  | .fileStart name size mimeType =>
    (aSet st deviceId
       { fileName := name, totalSize := size, mimeType := mimeType,
         chunks := [], receivedSize := 0 },
     [RecvEvent.progressEv deviceId name size 0 0])
  | .fileEnd => reconstructFile st deviceId
  | .other => (st, [])
  | .chunk bytes => handleFileChunk st deviceId bytes

/-- Deliver a sequence of in-order channel messages from one device,
accumulating the emitted events. -/
def processMessages (st : RecvState) (deviceId : String) :
    List WireMsg → RecvState × List RecvEvent
  | [] => (st, [])
  | m :: rest =>
    let r1 := handleDataChannelMessage st deviceId m
    let r2 := processMessages r1.1 deviceId rest
    (r2.1, r1.2 ++ r2.2)

def countChunks (msgs : List WireMsg) : Nat :=
  (msgs.filter (fun m => m.isChunk)).length

def countFileStarts (msgs : List WireMsg) : Nat :=
  (msgs.filter (fun m => m.isFileStart)).length

def countFileEnds (msgs : List WireMsg) : Nat :=
  (msgs.filter (fun m => m.isFileEnd)).length

/-! ## Sender lemmas -/

/-- Unfolding of the sender loop when another chunk follows. -/
theorem senderChunks_step (file : List Nat) (x : Nat)
    (h : x + CHUNK_SIZE < file.length) :
    senderChunks file x =
      (file.drop x).take CHUNK_SIZE :: senderChunks file (x + CHUNK_SIZE) := by
  rw [senderChunks]
  simp only [if_pos h]

/-- Unfolding of the sender loop at the final chunk. -/
theorem senderChunks_last (file : List Nat) (x : Nat)
    (h : ¬ x + CHUNK_SIZE < file.length) :
    senderChunks file x = [(file.drop x).take CHUNK_SIZE] := by
  rw [senderChunks]
  simp only [if_neg h]

/-- The sender's chunks concatenate back to the remaining file content. -/
theorem senderChunks_flatten (file : List Nat) (offset : Nat) :
    (senderChunks file offset).flatten = file.drop offset := by
  refine senderChunks.induct file
    (fun off => (senderChunks file off).flatten = file.drop off) ?_ ?_ offset
  · intro x h ih
    rw [senderChunks_step file x h, List.flatten_cons, ih]
    exact List.drop_take_append_drop file x CHUNK_SIZE
  · intro x h
    rw [senderChunks_last file x h]
    simp only [List.flatten_cons, List.flatten_nil, List.append_nil]
    apply List.take_of_length_le
    simp only [List.length_drop]
    omega

/-- The number of chunk messages the sender loop emits from `offset`:
one chunk is always sent, then one more for every further `CHUNK_SIZE`
step strictly below the file length. -/
theorem senderChunks_length (file : List Nat) (offset : Nat) :
    (senderChunks file offset).length =
      (file.length - offset - 1) / CHUNK_SIZE + 1 := by
  have hC : 0 < CHUNK_SIZE := by decide
  refine senderChunks.induct file
    (fun off => (senderChunks file off).length =
      (file.length - off - 1) / CHUNK_SIZE + 1) ?_ ?_ offset
  · intro x h ih
    rw [senderChunks_step file x h, List.length_cons, ih]
    have hsplit : file.length - x - 1 =
        (file.length - (x + CHUNK_SIZE) - 1) + CHUNK_SIZE := by omega
    rw [hsplit, Nat.add_div_right _ hC]
  · intro x h
    rw [senderChunks_last file x h, List.length_singleton,
      Nat.div_eq_of_lt (by omega)]

/-! ## Receiver lemmas -/

theorem processMessages_append (st : RecvState) (dev : String)
    (xs ys : List WireMsg) :
    processMessages st dev (xs ++ ys) =
      ((processMessages (processMessages st dev xs).1 dev ys).1,
       (processMessages st dev xs).2 ++
         (processMessages (processMessages st dev xs).1 dev ys).2) := by
  induction xs generalizing st with
  | nil => simp [processMessages]
  | cons m rest ih =>
    simp only [List.cons_append, processMessages, List.append_eq]
    rw [ih]
    simp [List.append_assoc]

/-- The receiver-side message handlers never invoke `onError`: all
failure paths in the source are bare `console.error` calls. -/
theorem processMessages_no_error (dev : String) (msgs : List WireMsg) :
    ∀ st, ∀ e ∈ (processMessages st dev msgs).2, e.isError = false := by
  induction msgs with
  | nil =>
    intro st e he
    simp [processMessages] at he
  | cons m rest ih =>
    intro st e he
    simp only [processMessages, List.mem_append] at he
    rcases he with he | he
    · cases m with
      | fileStart n s mt =>
        simp only [handleDataChannelMessage, List.mem_singleton] at he
        subst he; rfl
      | chunk c =>
        simp only [handleDataChannelMessage, handleFileChunk] at he
        cases haG : aGet st dev with
        | none => rw [haG] at he; simp at he
        | some t =>
          rw [haG] at he
          simp only [List.mem_singleton] at he
          subst he; rfl
      | fileEnd =>
        simp only [handleDataChannelMessage, reconstructFile] at he
        cases haG : aGet st dev with
        | none => rw [haG] at he; simp at he
        | some t =>
          rw [haG] at he
          simp only [List.mem_singleton] at he
          subst he; rfl
      | other =>
        simp [handleDataChannelMessage] at he
    · exact ih _ e he

/-- Without a `file-end` message, no `onFileReceived` event carries any
bytes: `fileReceivedEv` is produced only by the `file-end` branch. -/
theorem processMessages_no_fileEnd (dev : String) (msgs : List WireMsg)
    (hmsgs : ∀ m ∈ msgs, m.isFileEnd = false) :
    ∀ st, ∀ e ∈ (processMessages st dev msgs).2, e.receivedBytes = none := by
  induction msgs with
  | nil =>
    intro st e he
    simp [processMessages] at he
  | cons m rest ih =>
    intro st e he
    simp only [processMessages, List.mem_append] at he
    rcases he with he | he
    · cases m with
      | fileStart n s mt =>
        simp only [handleDataChannelMessage, List.mem_singleton] at he
        subst he; rfl
      | chunk c =>
        simp only [handleDataChannelMessage, handleFileChunk] at he
        cases haG : aGet st dev with
        | none => rw [haG] at he; simp at he
        | some t =>
          rw [haG] at he
          simp only [List.mem_singleton] at he
          subst he; rfl
      | fileEnd =>
        have : WireMsg.fileEnd.isFileEnd = false :=
          hmsgs WireMsg.fileEnd (List.mem_cons_self _ _)
        simp [WireMsg.isFileEnd] at this
      | other =>
        simp [handleDataChannelMessage] at he
    · exact ih (fun x hx => hmsgs x (List.mem_cons_of_mem _ hx)) _ e he

/-- Feeding a run of binary chunks to an active transfer appends them to
the buffer in arrival order and accumulates `receivedSize`. -/
theorem processMessages_chunks_state (dev : String) (cs : List (List Nat)) :
    ∀ (st : RecvState) (t : Transfer), aGet st dev = some t →
      aGet (processMessages st dev (cs.map WireMsg.chunk)).1 dev =
        some { t with chunks := t.chunks ++ cs,
                      receivedSize := t.receivedSize + (cs.map List.length).sum } := by
  induction cs with
  | nil =>
    intro st t h
    simpa [processMessages] using h
  | cons c rest ih =>
    intro st t h
    simp only [List.map_cons, processMessages, handleDataChannelMessage]
    have hstep : handleFileChunk st dev c =
        (aSet st dev { t with chunks := t.chunks ++ [c],
                              receivedSize := t.receivedSize + c.length },
         [RecvEvent.progressEv dev t.fileName t.totalSize (t.receivedSize + c.length)
            (((t.receivedSize + c.length : Nat) : ℚ) / ((t.totalSize : Nat) : ℚ) * 100)]) := by
      rw [handleFileChunk, h]
    rw [hstep]
    have := ih (aSet st dev { t with chunks := t.chunks ++ [c],
                                     receivedSize := t.receivedSize + c.length })
      _ (aGet_aSet_self st dev _)
    rw [this]
    congr 1
    simp [Nat.add_assoc]

theorem countChunks_sendFile (f : List Nat) (n m : String) :
    countChunks (sendFile f n m) = (senderChunks f 0).length := by
  simp [countChunks, sendFile, List.filter_append, List.filter_map,
    WireMsg.isChunk, Function.comp]

theorem countFileStarts_sendFile (f : List Nat) (n m : String) :
    countFileStarts (sendFile f n m) = 1 := by
  simp [countFileStarts, sendFile, List.filter_append, List.filter_map,
    WireMsg.isFileStart, Function.comp]

theorem countFileEnds_sendFile (f : List Nat) (n m : String) :
    countFileEnds (sendFile f n m) = 1 := by
  simp [countFileEnds, sendFile, List.filter_append, List.filter_map,
    WireMsg.isFileEnd, Function.comp]

/-- Round trip: delivering the sender's exact message sequence to a fresh
receiver produces exactly one `onFileReceived` whose byte content is the
source file. -/
theorem sendFile_roundtrip (f : List Nat) (n m dev : String) :
    (processMessages [] dev (sendFile f n m)).2.filterMap
      RecvEvent.receivedBytes = [f] := by
  have hsf : sendFile f n m =
      [WireMsg.fileStart n f.length m] ++
        ((senderChunks f 0).map WireMsg.chunk ++ [WireMsg.fileEnd]) := rfl
  have hA : processMessages [] dev [WireMsg.fileStart n f.length m] =
      (aSet [] dev { fileName := n, totalSize := f.length, mimeType := m,
                     chunks := [], receivedSize := 0 },
       [RecvEvent.progressEv dev n f.length 0 0]) := rfl
  have hget : aGet (aSet ([] : RecvState) dev
      { fileName := n, totalSize := f.length, mimeType := m,
        chunks := [], receivedSize := 0 }) dev =
      some { fileName := n, totalSize := f.length, mimeType := m,
             chunks := [], receivedSize := 0 } := aGet_aSet_self _ _ _
  have hstate := processMessages_chunks_state dev (senderChunks f 0) _ _ hget
  have hchunkmsgs : ∀ x ∈ (senderChunks f 0).map WireMsg.chunk,
      x.isFileEnd = false := by
    intro x hx
    rcases List.mem_map.mp hx with ⟨c, _, rfl⟩
    rfl
  have hCev := processMessages_no_fileEnd dev
    ((senderChunks f 0).map WireMsg.chunk) hchunkmsgs
    (aSet [] dev { fileName := n, totalSize := f.length, mimeType := m,
                   chunks := [], receivedSize := 0 })
  have hEndEv : (processMessages
      (processMessages
        (aSet [] dev { fileName := n, totalSize := f.length, mimeType := m,
                       chunks := [], receivedSize := 0 }) dev
        ((senderChunks f 0).map WireMsg.chunk)).1 dev [WireMsg.fileEnd]).2 =
      [RecvEvent.fileReceivedEv dev
        { name := n, size := f.length, mimeType := m,
          bytes := (senderChunks f 0).flatten, fromDevice := dev }] := by
    simp only [processMessages, handleDataChannelMessage, reconstructFile]
    rw [hstate]
    simp
  rw [hsf, processMessages_append, hA, processMessages_append]
  simp only [List.filterMap_append]
  rw [hEndEv]
  have h1 : List.filterMap RecvEvent.receivedBytes
      [RecvEvent.progressEv dev n f.length 0 0] = [] := rfl
  have h2 : List.filterMap RecvEvent.receivedBytes
      (processMessages
        (aSet [] dev { fileName := n, totalSize := f.length, mimeType := m,
                       chunks := [], receivedSize := 0 }) dev
        ((senderChunks f 0).map WireMsg.chunk)).2 = [] :=
    List.filterMap_eq_nil_iff.mpr hCev
  rw [h1, h2]
  simp [RecvEvent.receivedBytes, senderChunks_flatten]

/-- Claim C1 (amended): for a file of N bytes the sender emits exactly one
`file-start` control message first, then only binary chunk messages, then
exactly one `file-end` last; the number of chunk messages is ceil(N/C)
for N ≥ 1 but is 1 (one empty chunk) for N = 0, because the sender loop
sends its first chunk before testing `offset < file.size`; and feeding
the emitted sequence to a fresh receiver yields exactly one received file
whose byte sequence is byte-for-byte the source file (all N, N = 0
included). -/
theorem sendFile_protocol_roundtrip (f : List Nat) (n m dev : String) :
    (sendFile f n m).head? = some (WireMsg.fileStart n f.length m)
    ∧ (sendFile f n m).getLast? = some WireMsg.fileEnd
    ∧ (((sendFile f n m).drop 1).dropLast).all WireMsg.isChunk = true
    ∧ countFileStarts (sendFile f n m) = 1
    ∧ countFileEnds (sendFile f n m) = 1
    ∧ countChunks (sendFile f n m) =
        (if f.length = 0 then 1 else (f.length + CHUNK_SIZE - 1) / CHUNK_SIZE)
    ∧ (processMessages [] dev (sendFile f n m)).2.filterMap
        RecvEvent.receivedBytes = [f] := by
  refine ⟨rfl, ?_, ?_, countFileStarts_sendFile f n m,
    countFileEnds_sendFile f n m, ?_, sendFile_roundtrip f n m dev⟩
  · have h : sendFile f n m =
        (WireMsg.fileStart n f.length m :: (senderChunks f 0).map WireMsg.chunk)
          ++ [WireMsg.fileEnd] := by
      simp [sendFile]
    rw [h, List.getLast?_concat]
  · have h : ((sendFile f n m).drop 1).dropLast =
        (senderChunks f 0).map WireMsg.chunk := by
      simp [sendFile]
    rw [h]
    simp [List.all_eq_true, WireMsg.isChunk]
  · rw [countChunks_sendFile, senderChunks_length]
    by_cases hf : f.length = 0
    · rw [if_pos hf, hf]
      rfl
    · rw [if_neg hf]
      rw [show f.length - 0 - 1 = f.length - 1 from by omega]
      have hC : 0 < CHUNK_SIZE := by decide
      have hsplit : f.length + CHUNK_SIZE - 1 = (f.length - 1) + CHUNK_SIZE := by
        omega
      rw [hsplit, Nat.add_div_right _ hC]

/-- Claim C1 counterexample: for the empty file the claim's chunk count
ceil(0/C) = 0 is wrong — the sender emits one (empty) binary chunk
message, because the loop sends its first chunk unconditionally. -/
theorem sendFile_empty_file_chunk_count :
    countChunks (sendFile [] "empty.txt" "text/plain") = 1
    ∧ (0 + CHUNK_SIZE - 1) / CHUNK_SIZE = 0 := by
  constructor
  · rw [countChunks_sendFile, senderChunks_length]
    rfl
  · decide

/-! ## Signaling server (src/server.js, class SignalingServer)

The server keeps `devices: Map<deviceId, {id, name, socketId, lastSeen}>`.
A JS `Map` preserves insertion order, so `register-device` appends a
fresh-uuid entry, `heartbeat` mutates `lastSeen` in place, `disconnect`
removes the first entry with the matching socketId (the loop breaks after
one hit), and the cleanup timer filters out entries older than 60s. -/

structure ServerDevice where
  id : String
  name : String
  socketId : String
  lastSeen : Nat
  deriving DecidableEq

abbrev Registry : Type := List (String × ServerDevice)

/-- the 30s window in `isDeviceOnline` (server.js line 109) -/
def ONLINE_TIMEOUT : Nat := 30000

/-- the 60s removal window in `startCleanupTimer` (server.js line 115) -/
def CLEANUP_TIMEOUT : Nat := 60000

/-- `isDeviceOnline` (server.js lines 108-111):
`Date.now() - device.lastSeen < 30000`.  In JS the subtraction can be
negative (a `lastSeen` stamped after `now`), making the comparison true;
truncated `Nat` subtraction yields 0 there and agrees. -/
def isDeviceOnline (now : Nat) (d : ServerDevice) : Bool :=
  now - d.lastSeen < ONLINE_TIMEOUT

/-- one row of the `devices-updated` payload -/
structure DeviceListing where
  id : String
  name : String
  status : String
  deriving DecidableEq

/-- `sendDeviceList` / `broadcastDeviceList` (server.js lines 88-106):
the status is derived from `lastSeen` at read time, never stored. -/
def sendDeviceList (devices : Registry) (now : Nat) : List DeviceListing :=
  devices.map (fun p =>
    { id := p.2.id, name := p.2.name,
      status := if isDeviceOnline now p.2 then "online" else "offline" })

/-- `register-device` handler (server.js lines 26-45): a fresh uuid key
(passed in here, uuids being opaque), `name` defaulting when falsy, and
`lastSeen = now`.  A fresh key appends to the Map's order. -/
def registerDevice (devices : Registry) (deviceId name socketId : String)
    (now : Nat) : Registry :=
  devices ++ [(deviceId,
    { id := deviceId,
      name := if name = "" then "Device-" ++ deviceId else name,
      socketId := socketId, lastSeen := now })]

/-- `heartbeat` handler (server.js lines 63-68): update `lastSeen` in
place if the device exists, otherwise do nothing. -/
def heartbeatDevice (devices : Registry) (deviceId : String) (now : Nat) :
    Registry :=
  devices.map (fun p =>
    if p.1 == deviceId then (p.1, { p.2 with lastSeen := now }) else p)

/-- `disconnect` handler (server.js lines 70-84): remove the first device
whose `socketId` matches (the loop breaks after the first hit). -/
def disconnectSocket (devices : Registry) (socketId : String) : Registry :=
  devices.eraseP (fun p => p.2.socketId == socketId)

/-- the cleanup timer body (server.js lines 113-131): drop entries with
`now - lastSeen > 60000`. -/
def cleanupSweep (devices : Registry) (now : Nat) : Registry :=
  devices.filter (fun p => !(now - p.2.lastSeen > CLEANUP_TIMEOUT))

/-- Any operation that can touch the registry. -/
inductive RegOp : Type
  | register (deviceId name socketId : String) (now : Nat)
  | heartbeat (deviceId : String) (now : Nat)
  | disconnect (socketId : String)
  | sweep (now : Nat)

def applyOp (devices : Registry) : RegOp → Registry
  | .register id n s now => registerDevice devices id n s now
  | .heartbeat id now => heartbeatDevice devices id now
  | .disconnect s => disconnectSocket devices s
  | .sweep now => cleanupSweep devices now

/-- Registry state reached from empty by a sequence of operations. -/
def applyOps (ops : List RegOp) : Registry :=
  ops.foldl applyOp []

/-! ## Relay (src/server.js `webrtc-signal` handler, lines 51-61) -/

inductive SigKind : Type
  | offer
  | answer
  | iceCandidate
  deriving DecidableEq

/-- A negotiation message (`SignalingMessage` in webrtc-manager.ts):
the `data` payload is an opaque blob the relay never inspects.  The TS
field named `type` is called `kind` here (`type` is reserved in Lean). -/
structure SignalingMessage where
  kind : SigKind
  data : String
  targetDeviceId : String
  sourceDeviceId : String
  deriving DecidableEq

inductive RelayOut : Type
  /-- `io.to(targetDevice.socketId).emit('webrtc-signal', message)` -/
  | deliver (socketId : String) (message : SignalingMessage)
  /-- `socket.emit('error', { message })` back to the sender -/
  | errorToSender (socketId : String) (message : String)
  deriving DecidableEq

/-- the `webrtc-signal` handler (server.js lines 51-61). -/
def handleWebrtcSignal (devices : Registry) (senderSocketId : String)
    (msg : SignalingMessage) : RelayOut :=
  match aGet devices msg.targetDeviceId with
  | some d => RelayOut.deliver d.socketId msg
  | none => RelayOut.errorToSender senderSocketId "Target device not found"

theorem status_eq_online_iff (b : Bool) :
    (if b then "online" else "offline") = "online" ↔ b = true := by
  cases b <;> simp

/-- Claim C2: over every state reachable by register/heartbeat/disconnect/
sweep operations and every read time, the broadcast device list has one
row per stored device, and a row is marked "online" exactly when
`now - lastSeen` is strictly below the 30-second window; the status is
recomputed from `lastSeen` at each read. -/
theorem deviceList_online_iff (ops : List RegOp) (now : Nat) :
    (sendDeviceList (applyOps ops) now).length = (applyOps ops).length
    ∧ ∀ i (hi : i < (sendDeviceList (applyOps ops) now).length)
        (hj : i < (applyOps ops).length),
        ((sendDeviceList (applyOps ops) now).get ⟨i, hi⟩).status = "online"
          ↔ now - ((applyOps ops).get ⟨i, hj⟩).2.lastSeen < ONLINE_TIMEOUT := by
  constructor
  · simp [sendDeviceList]
  · intro i hi hj
    have hmap : (sendDeviceList (applyOps ops) now).get ⟨i, hi⟩ =
        { id := ((applyOps ops).get ⟨i, hj⟩).2.id,
          name := ((applyOps ops).get ⟨i, hj⟩).2.name,
          status := if isDeviceOnline now ((applyOps ops).get ⟨i, hj⟩).2
            then "online" else "offline" } := by
      simp [sendDeviceList]
    rw [hmap]
    exact (status_eq_online_iff _).trans (by simp [isDeviceOnline])

/-- Witness for C2 at a concrete trace: a device registered at t=1000 and
read at t=5000 is listed online. -/
theorem deviceList_online_iff_witness :
    ((sendDeviceList (applyOps [RegOp.register "d1" "Alice" "s1" 1000]) 5000).get
        ⟨0, by decide⟩).status = "online" :=
  ((deviceList_online_iff [RegOp.register "d1" "Alice" "s1" 1000] 5000).2 0
    (by decide) (by decide)).mpr (by decide)

/-- Claim C4: the relay looks up the target device id; when registered the
message is delivered to that device's transport verbatim (the delivered
message is the very message passed in, untouched), and when absent a
target-not-found error goes back to the sender and nothing is delivered. -/
theorem relay_forward_verbatim (devices : Registry) (senderSocketId : String)
    (msg : SignalingMessage) :
    (∀ d, aGet devices msg.targetDeviceId = some d →
        handleWebrtcSignal devices senderSocketId msg =
          RelayOut.deliver d.socketId msg)
    ∧ (aGet devices msg.targetDeviceId = none →
        handleWebrtcSignal devices senderSocketId msg =
          RelayOut.errorToSender senderSocketId "Target device not found") := by
  constructor
  · intro d h
    simp [handleWebrtcSignal, h]
  · intro h
    simp [handleWebrtcSignal, h]

/-- Witness for C4: a concrete registered target gets the exact message;
an empty registry sends the error back to the sender's socket. -/
theorem relay_forward_verbatim_witness :
    handleWebrtcSignal
        [("B", { id := "B", name := "Bob", socketId := "sockB", lastSeen := 0 })]
        "sockA"
        { kind := SigKind.offer, data := "sdp-blob",
          targetDeviceId := "B", sourceDeviceId := "A" } =
      RelayOut.deliver "sockB"
        { kind := SigKind.offer, data := "sdp-blob",
          targetDeviceId := "B", sourceDeviceId := "A" }
    ∧ handleWebrtcSignal [] "sockA"
        { kind := SigKind.offer, data := "sdp-blob",
          targetDeviceId := "B", sourceDeviceId := "A" } =
      RelayOut.errorToSender "sockA" "Target device not found" :=
  ⟨(relay_forward_verbatim
      [("B", { id := "B", name := "Bob", socketId := "sockB", lastSeen := 0 })]
      "sockA"
      { kind := SigKind.offer, data := "sdp-blob",
        targetDeviceId := "B", sourceDeviceId := "A" }).1
      { id := "B", name := "Bob", socketId := "sockB", lastSeen := 0 } (by decide),
   (relay_forward_verbatim [] "sockA"
      { kind := SigKind.offer, data := "sdp-blob",
        targetDeviceId := "B", sourceDeviceId := "A" }).2 (by decide)⟩

/-- Claim C5 (amended): a second `file-start` arriving while a transfer is
already active on that direction is not surfaced as an error — the
receiver silently overwrites the map entry with a fresh session.  The two
buffers are not merged (the new session starts empty), but the first
session's buffered chunks are discarded without any error event. -/
theorem second_meta_replaces_session (st : RecvState) (dev : String)
    (t : Transfer) (name mimeType : String) (size : Nat)
    (h : aGet st dev = some t) :
    (handleDataChannelMessage st dev (WireMsg.fileStart name size mimeType)).1 =
        aSet st dev { fileName := name, totalSize := size, mimeType := mimeType,
                      chunks := [], receivedSize := 0 }
    ∧ ∀ e ∈ (handleDataChannelMessage st dev
        (WireMsg.fileStart name size mimeType)).2, e.isError = false := by
  refine ⟨rfl, ?_⟩
  intro e he
  simp only [handleDataChannelMessage, List.mem_singleton] at he
  subst he
  rfl

/-- Claim C5 counterexample: with a session for device "A" already holding
buffered bytes, a second `file-start` yields no error event (the claim
requires a ProtocolViolation), and the map entry now holds a fresh empty
buffer — the first file's chunks are gone. -/
theorem second_meta_no_error_counterexample :
    ((handleDataChannelMessage
        [("A", ({ fileName := "first.txt", totalSize := 10, mimeType := "t",
                  chunks := [[1, 2]], receivedSize := 2 } : Transfer))]
        "A" (WireMsg.fileStart "second.txt" 5 "t")).2.all
      (fun e => !(e.isError)) = true)
    ∧ aGet (handleDataChannelMessage
        [("A", ({ fileName := "first.txt", totalSize := 10, mimeType := "t",
                  chunks := [[1, 2]], receivedSize := 2 } : Transfer))]
        "A" (WireMsg.fileStart "second.txt" 5 "t")).1 "A" =
      some { fileName := "second.txt", totalSize := 5, mimeType := "t",
             chunks := [], receivedSize := 0 } :=
  ⟨rfl, rfl⟩

/-- Witness for C5 at a concrete state. -/
theorem second_meta_replaces_session_witness :
    aGet [("B", ({ fileName := "a.bin", totalSize := 3, mimeType := "b",
                   chunks := [[9]], receivedSize := 1 } : Transfer))] "B" =
      some { fileName := "a.bin", totalSize := 3, mimeType := "b",
             chunks := [[9]], receivedSize := 1 }
    ∧ (handleDataChannelMessage
        [("B", ({ fileName := "a.bin", totalSize := 3, mimeType := "b",
                  chunks := [[9]], receivedSize := 1 } : Transfer))]
        "B" (WireMsg.fileStart "c.bin" 7 "b")).1 =
      aSet [("B", ({ fileName := "a.bin", totalSize := 3, mimeType := "b",
                     chunks := [[9]], receivedSize := 1 } : Transfer))] "B"
        { fileName := "c.bin", totalSize := 7, mimeType := "b",
          chunks := [], receivedSize := 0 } :=
  ⟨rfl, (second_meta_replaces_session
    [("B", ({ fileName := "a.bin", totalSize := 3, mimeType := "b",
               chunks := [[9]], receivedSize := 1 } : Transfer))] "B"
    { fileName := "a.bin", totalSize := 3, mimeType := "b",
      chunks := [[9]], receivedSize := 1 } "c.bin" "b" 7 rfl).1⟩

/-- Claim C6 (amended): for an active receiving session the cumulative
`receivedSize` never decreases across chunk events, and when the declared
`totalSize` is nonzero the emitted progress equals 100 exactly when the
cumulative bytes equal `totalSize`.  When `totalSize = 0` (which the
sender does produce, for an empty file with one empty chunk) the progress
value is never 100 — `(0/0)*100` is NaN in JS and 0 in this rational
model — so the "reaches 100 at the final chunk" half fails there. -/
theorem chunk_progress_monotone_and_100 (st : RecvState) (dev : String)
    (t : Transfer) (c : List Nat) (h : aGet st dev = some t) :
    (handleFileChunk st dev c).2 =
      [RecvEvent.progressEv dev t.fileName t.totalSize (t.receivedSize + c.length)
        (((t.receivedSize + c.length : Nat) : ℚ) / ((t.totalSize : Nat) : ℚ) * 100)]
    ∧ t.receivedSize ≤ t.receivedSize + c.length
    ∧ (t.totalSize ≠ 0 →
        ((((t.receivedSize + c.length : Nat) : ℚ) / ((t.totalSize : Nat) : ℚ) * 100
            = 100)
          ↔ t.receivedSize + c.length = t.totalSize))
    ∧ (t.totalSize = 0 →
        ((t.receivedSize + c.length : Nat) : ℚ) / ((t.totalSize : Nat) : ℚ) * 100
          ≠ 100) := by
  refine ⟨?_, Nat.le_add_right _ _, ?_, ?_⟩
  · rw [handleFileChunk, h]
  · intro hts
    have hs : ((t.totalSize : Nat) : ℚ) ≠ 0 := Nat.cast_ne_zero.mpr hts
    rw [div_mul_eq_mul_div, div_eq_iff hs]
    constructor
    · intro heq
      have h2 : ((t.receivedSize + c.length : Nat) : ℚ) = ((t.totalSize : Nat) : ℚ) := by
        push_cast at heq ⊢
        linarith
      exact_mod_cast h2
    · intro heq
      rw [heq]
      ring
  · intro h0
    rw [h0]
    norm_num

/-- Claim C6 counterexample: at declared totalSize 0, the chunk whose
cumulative bytesReceived equals totalSize (the empty chunk an empty-file
sender emits) reports a progress value that is not 100. -/
theorem chunk_progress_zero_total_counterexample :
    (handleFileChunk
        [("A", ({ fileName := "e", totalSize := 0, mimeType := "t",
                  chunks := [], receivedSize := 0 } : Transfer))] "A" []).2 =
      [RecvEvent.progressEv "A" "e" 0 0
        (((0 + 0 : Nat) : ℚ) / ((0 : Nat) : ℚ) * 100)]
    ∧ (0 + 0 : Nat) = 0
    ∧ ((0 + 0 : Nat) : ℚ) / ((0 : Nat) : ℚ) * 100 ≠ 100 := by
  refine ⟨rfl, rfl, ?_⟩
  norm_num

/-- Witness for C6 at a concrete session: 2 bytes buffered of 4, a 2-byte
chunk arrives, progress hits 100 exactly because 2+2 = 4. -/
theorem chunk_progress_monotone_and_100_witness :
    aGet [("A", ({ fileName := "f.txt", totalSize := 4, mimeType := "t",
                   chunks := [[1, 2]], receivedSize := 2 } : Transfer))] "A" =
      some { fileName := "f.txt", totalSize := 4, mimeType := "t",
             chunks := [[1, 2]], receivedSize := 2 }
    ∧ (4 : Nat) ≠ 0
    ∧ ((((2 + 2 : Nat) : ℚ) / ((4 : Nat) : ℚ) * 100 = 100) ↔ (2 + 2 : Nat) = 4) :=
  ⟨rfl, by decide,
   (chunk_progress_monotone_and_100
      [("A", ({ fileName := "f.txt", totalSize := 4, mimeType := "t",
                 chunks := [[1, 2]], receivedSize := 2 } : Transfer))] "A"
      { fileName := "f.txt", totalSize := 4, mimeType := "t",
        chunks := [[1, 2]], receivedSize := 2 } [3, 4] rfl).2.2.1 (by decide)⟩

/-- Claim C7 (amended): when the cumulative received bytes exceed the
declared totalSize, `handleFileChunk` accepts the excess: the chunk is
appended, the session stays active (nothing is aborted or deleted), no
error event is emitted, and for a nonzero declared size the reported
progress is strictly above 100 rather than clamped.  (The handler never
touches the channel, so the Channel is indeed not closed — but neither is
any protocol error raised.) -/
theorem chunk_overflow_accepted (st : RecvState) (dev : String)
    (t : Transfer) (c : List Nat) (h : aGet st dev = some t)
    (hover : t.totalSize < t.receivedSize + c.length) :
    aGet (handleFileChunk st dev c).1 dev =
        some { t with chunks := t.chunks ++ [c],
                      receivedSize := t.receivedSize + c.length }
    ∧ (∀ e ∈ (handleFileChunk st dev c).2, e.isError = false)
    ∧ (0 < t.totalSize →
        100 < ((t.receivedSize + c.length : Nat) : ℚ) /
          ((t.totalSize : Nat) : ℚ) * 100) := by
  refine ⟨?_, ?_, ?_⟩
  · rw [handleFileChunk, h]
    exact aGet_aSet_self st dev _
  · intro e he
    rw [handleFileChunk, h] at he
    simp only [List.mem_singleton] at he
    subst he
    rfl
  · intro hpos
    have hs : (0 : ℚ) < ((t.totalSize : Nat) : ℚ) := by exact_mod_cast hpos
    have h1 : (1 : ℚ) <
        ((t.receivedSize + c.length : Nat) : ℚ) / ((t.totalSize : Nat) : ℚ) :=
      (one_lt_div hs).mpr (by exact_mod_cast hover)
    nlinarith

/-- Claim C7 counterexample: a 2-byte chunk against a declared totalSize
of 1 is neither rejected nor aborted — no error event, and the session
remains in the map with the excess bytes buffered. -/
theorem chunk_overflow_counterexample :
    ((handleFileChunk
        [("A", ({ fileName := "f", totalSize := 1, mimeType := "t",
                  chunks := [], receivedSize := 0 } : Transfer))] "A" [7, 8]).2.all
      (fun e => !(e.isError)) = true)
    ∧ aGet (handleFileChunk
        [("A", ({ fileName := "f", totalSize := 1, mimeType := "t",
                  chunks := [], receivedSize := 0 } : Transfer))] "A" [7, 8]).1 "A" =
      some { fileName := "f", totalSize := 1, mimeType := "t",
             chunks := [[7, 8]], receivedSize := 2 } :=
  ⟨rfl, rfl⟩

/-- Witness for C7 at the same concrete overflow. -/
theorem chunk_overflow_accepted_witness :
    aGet [("A", ({ fileName := "f", totalSize := 1, mimeType := "t",
                   chunks := [], receivedSize := 0 } : Transfer))] "A" =
      some { fileName := "f", totalSize := 1, mimeType := "t",
             chunks := [], receivedSize := 0 }
    ∧ (1 : Nat) < 0 + 2
    ∧ aGet (handleFileChunk
        [("A", ({ fileName := "f", totalSize := 1, mimeType := "t",
                  chunks := [], receivedSize := 0 } : Transfer))] "A" [7, 8]).1 "A" =
      some { fileName := "f", totalSize := 1, mimeType := "t",
             chunks := [[7, 8]], receivedSize := 0 + 2 } :=
  ⟨rfl, by decide,
   (chunk_overflow_accepted
      [("A", ({ fileName := "f", totalSize := 1, mimeType := "t",
                 chunks := [], receivedSize := 0 } : Transfer))] "A"
      { fileName := "f", totalSize := 1, mimeType := "t",
        chunks := [], receivedSize := 0 } [7, 8] rfl (by decide)).1⟩

/-- Claim C10: the emitted ReceivedFile reports `size = totalSize` as
declared in the meta message, not the byte count of the reassembled blob,
and delivers the concatenated buffered chunks as the bytes — so whenever
declared size and actual bytes disagree, the reported size differs from
the length of the delivered byte sequence (see the witness for a concrete
disagreement). -/
theorem receivedFile_size_is_declared (st : RecvState) (dev : String)
    (t : Transfer) (h : aGet st dev = some t) :
    (reconstructFile st dev).2 =
      [RecvEvent.fileReceivedEv dev
        { name := t.fileName, size := t.totalSize, mimeType := t.mimeType,
          bytes := t.chunks.flatten, fromDevice := dev }] := by
  rw [reconstructFile, h]

/-- Witness for C10: declared size 10, actual bytes [1, 2] — the event
reports size 10 while delivering 2 bytes, and 10 is not 2. -/
theorem receivedFile_size_is_declared_witness :
    (reconstructFile
        [("A", ({ fileName := "f", totalSize := 10, mimeType := "t",
                  chunks := [[1, 2]], receivedSize := 2 } : Transfer))] "A").2 =
      [RecvEvent.fileReceivedEv "A"
        { name := "f", size := 10, mimeType := "t",
          bytes := [1, 2], fromDevice := "A" }]
    ∧ (10 : Nat) ≠ ([1, 2] : List Nat).length := by
  have h := receivedFile_size_is_declared
    [("A", ({ fileName := "f", totalSize := 10, mimeType := "t",
              chunks := [[1, 2]], receivedSize := 2 } : Transfer))] "A"
    { fileName := "f", totalSize := 10, mimeType := "t",
      chunks := [[1, 2]], receivedSize := 2 } rfl
  exact ⟨h, by decide⟩

/-! ## DeviceDiscovery connection manager (src/lib/device-discovery.ts)

One `DeviceConnection {device, webrtc, status}` per remote device id, in
`connections: Map<string, DeviceConnection>`.  The embedded WebRTCManager
object is represented by the ordinal of its `new WebRTCManager(...)`
call (`rtcId`), and the state carries `rtcCreated`, the number of such
calls so far — so "no second peer connection/channel is created" is the
statement that `rtcCreated` does not grow. -/

inductive ConnStatus : Type
  | connecting
  | connected
  | disconnected
  | failed
  deriving DecidableEq

/-- a client-side row of `devices-updated` (
`Device` in device-discovery.ts) -/
structure ClientDevice where
  id : String
  name : String
  status : String
  deriving DecidableEq

structure DeviceConnection where
  device : ClientDevice
  rtcId : Nat
  status : ConnStatus
  deriving DecidableEq

structure DiscoveryState where
  socketConnected : Bool
  deviceId : Option String
  connections : List (String × DeviceConnection)
  fileTransfers : List (String × Transfer)
  heartbeatActive : Bool
  rtcCreated : Nat
  deriving DecidableEq

/-- Result of a `connectToDevice` call: the new state, the signaling
messages emitted, and the error thrown (none on success or no-op). -/
structure ConnectResult where
  state : DiscoveryState
  sent : List SignalingMessage
  thrown : Option String
  deriving DecidableEq

/-- `connectToDevice` (device-discovery.ts lines 122-157):
throw unless registered and the socket is connected; return immediately
if `connections.has(targetDeviceId)`; resolve the target from the device
list (`getDeviceById`), throwing `Target device not found` when absent;
otherwise construct a WebRTCManager, store a `connecting` entry, and
send the offer — on `createOffer` failure delete the entry and rethrow.
`deviceList` is the `devices-updated` reply `getDeviceById` consults,
`offerOk`/`offerSdp` stand for the outcome of the async `createOffer`. -/
def connectToDevice (st : DiscoveryState) (targetDeviceId : String)
    (deviceList : List ClientDevice) (offerOk : Bool) (offerSdp : String) :
    ConnectResult :=
  match st.deviceId with
  | none => ⟨st, [], some "Not connected to signaling server"⟩
  | some myId =>
    if !st.socketConnected then ⟨st, [], some "Not connected to signaling server"⟩
    else if (aGet st.connections targetDeviceId).isSome then ⟨st, [], none⟩
    else
      match deviceList.find? (fun d => d.id == targetDeviceId) with
      | none => ⟨st, [], some "Target device not found"⟩
      | some targetDevice =>
        let st1 : DiscoveryState :=
          { st with rtcCreated := st.rtcCreated + 1,
                    connections := aSet st.connections targetDeviceId
                      ⟨targetDevice, st.rtcCreated, ConnStatus.connecting⟩ }
        if offerOk then
          ⟨st1, [⟨SigKind.offer, offerSdp, targetDeviceId, myId⟩], none⟩
        else
          ⟨{ st1 with connections := aErase st1.connections targetDeviceId },
           [], some "Failed to create offer"⟩

/-- `disconnect` (device-discovery.ts lines 96-114): stop the heartbeat,
close every WebRTC connection and clear the connections map, drop the
socket and the device id.  `fileTransfers` is not touched — the source
never clears it here, so partial receive buffers survive. -/
def DiscoveryState.disconnect (st : DiscoveryState) : DiscoveryState :=
  { st with heartbeatActive := false, connections := [],
            socketConnected := false, deviceId := none }

/-! ## SimpleNetworking (src/lib/simple-networking.ts)

The parallel "simple" implementation: `connections: Map<string,
{peerConnection, dataChannel}>` with no status field and, crucially, no
existing-connection guard in its `connectToDevice`. -/

structure SNConnection where
  rtcId : Nat
  deriving DecidableEq

structure SNState where
  socketConnected : Bool
  deviceId : Option String
  connections : List (String × SNConnection)
  fileTransfers : List (String × Transfer)
  rtcCreated : Nat
  deriving DecidableEq

structure SNConnectResult where
  state : SNState
  sent : List SignalingMessage
  thrown : Option String
  deriving DecidableEq

/-- `connectToDevice` (simple-networking.ts lines 99-151): after the
registration check it unconditionally builds a fresh RTCPeerConnection
plus data channel, overwrites any existing `connections` entry, and sends
a fresh offer — there is no `connections.has` guard. -/
def SNState.connectToDevice (st : SNState) (deviceId : String)
    (offerSdp : String) : SNConnectResult :=
  match st.deviceId with
  | none => ⟨st, [], some "Not connected to signaling server"⟩
  | some myId =>
    if !st.socketConnected then ⟨st, [], some "Not connected to signaling server"⟩
    else
      ⟨{ st with rtcCreated := st.rtcCreated + 1,
                 connections := aSet st.connections deviceId ⟨st.rtcCreated⟩ },
       [⟨SigKind.offer, offerSdp, deviceId, myId⟩], none⟩

/-- `disconnect` (simple-networking.ts lines 89-97): drops the socket and
clears both the connections and the fileTransfers maps. -/
def SNState.disconnect (st : SNState) : SNState :=
  { st with socketConnected := false, deviceId := none,
            connections := [], fileTransfers := [] }

/-- Claim C3 (amended): in DeviceDiscovery, `connectToDevice` with any
existing connection entry for the target — connecting or connected
included — returns immediately: the state (the entry included) is
unchanged, no signaling message is sent, no new WebRTC manager or channel
is created, and nothing is thrown.  The SimpleNetworking variant has no
such guard and does create a second connection and a duplicate offer
(see the counterexample). -/
theorem connect_existing_noop (st : DiscoveryState) (target : String)
    (deviceList : List ClientDevice) (offerOk : Bool) (sdp myId : String)
    (c : DeviceConnection)
    (hid : st.deviceId = some myId) (hsock : st.socketConnected = true)
    (hconn : aGet st.connections target = some c) :
    connectToDevice st target deviceList offerOk sdp = ⟨st, [], none⟩ := by
  simp [connectToDevice, hid, hsock, hconn]

/-- Claim C3 counterexample: `SimpleNetworking.connectToDevice` on a
device that already has a connection entry sends a second offer, creates
a second peer connection (`rtcCreated` grows to 2), and replaces the
existing entry with the fresh connection — not a no-op. -/
theorem connect_existing_not_noop_counterexample :
    (SNState.connectToDevice
        ⟨true, some "me", [("B", ⟨0⟩)], [], 1⟩ "B" "sdp2").sent =
      [⟨SigKind.offer, "sdp2", "B", "me"⟩]
    ∧ aGet (SNState.connectToDevice
        ⟨true, some "me", [("B", ⟨0⟩)], [], 1⟩ "B" "sdp2").state.connections
        "B" = some ⟨1⟩
    ∧ (SNState.connectToDevice
        ⟨true, some "me", [("B", ⟨0⟩)], [], 1⟩ "B" "sdp2").state.rtcCreated
      = 2 :=
  ⟨rfl, rfl, rfl⟩

/-- Witness for C3 on DeviceDiscovery: an already-connected entry for "B"
makes a second call a pure no-op. -/
theorem connect_existing_noop_witness :
    connectToDevice
        ⟨true, some "me",
         [("B", ⟨⟨"B", "Bob", "online"⟩, 0, ConnStatus.connected⟩)], [],
         true, 1⟩
        "B" [⟨"B", "Bob", "online"⟩] true "sdp2" =
      ⟨⟨true, some "me",
        [("B", ⟨⟨"B", "Bob", "online"⟩, 0, ConnStatus.connected⟩)], [],
        true, 1⟩, [], none⟩ :=
  connect_existing_noop
    ⟨true, some "me",
     [("B", ⟨⟨"B", "Bob", "online"⟩, 0, ConnStatus.connected⟩)], [],
     true, 1⟩
    "B" [⟨"B", "Bob", "online"⟩] true "sdp2" "me"
    ⟨⟨"B", "Bob", "online"⟩, 0, ConnStatus.connected⟩ rfl rfl rfl

/-- Claim C9: `connectToDevice` on a target id that has no existing
connection and is absent from the device list throws
`Target device not found` and leaves the state exactly as it was: no
connection entry is created, no WebRTC manager is constructed, no offer
is sent, and no entry transitions to failed. -/
theorem connect_unknown_target_unchanged (st : DiscoveryState)
    (target : String) (deviceList : List ClientDevice) (offerOk : Bool)
    (sdp myId : String)
    (hid : st.deviceId = some myId) (hsock : st.socketConnected = true)
    (hnoconn : aGet st.connections target = none)
    (hnodev : deviceList.find? (fun d => d.id == target) = none) :
    connectToDevice st target deviceList offerOk sdp =
      ⟨st, [], some "Target device not found"⟩ := by
  simp [connectToDevice, hid, hsock, hnoconn, hnodev]

/-- Witness for C9: a registered client calling connect on "ghost" (not
in the device list) gets the error and an untouched state. -/
theorem connect_unknown_target_unchanged_witness :
    connectToDevice ⟨true, some "me", [], [], true, 0⟩ "ghost"
        [⟨"other", "Olive", "online"⟩] true "sdp" =
      ⟨⟨true, some "me", [], [], true, 0⟩, [],
       some "Target device not found"⟩ :=
  connect_unknown_target_unchanged ⟨true, some "me", [], [], true, 0⟩
    "ghost" [⟨"other", "Olive", "online"⟩] true "sdp" "me"
    rfl rfl rfl (by decide)

/-- Claim C8 (amended): when the channel closes before `file-end` (so the
delivered message sequence contains no `file-end`), no file-received
event is ever emitted for that direction, whatever prefix of the chunks
arrived; and `SimpleNetworking.disconnect` releases all partial buffers.
`DeviceDiscovery.disconnect`, however, leaves `fileTransfers` untouched,
so there the partial buffer is not released (see the counterexample). -/
theorem no_partial_file (dev : String) (msgs : List WireMsg)
    (hmsgs : ∀ m ∈ msgs, m.isFileEnd = false) (st : RecvState)
    (sn : SNState) :
    (∀ e ∈ (processMessages st dev msgs).2, e.isFileReceived = false)
    ∧ (SNState.disconnect sn).fileTransfers = [] := by
  constructor
  · intro e he
    have h := processMessages_no_fileEnd dev msgs hmsgs st e he
    cases e with
    | progressEv a b c d q => rfl
    | fileReceivedEv a f => simp [RecvEvent.receivedBytes] at h
    | errorEv a => rfl
  · rfl

/-- Claim C8 counterexample: after receiving 50% of a 4-byte file,
`DeviceDiscovery.disconnect` leaves the half-full session in
`fileTransfers` — the partial buffer is not released. -/
theorem disconnect_keeps_partial_buffer_counterexample :
    (DiscoveryState.disconnect
        ⟨true, some "me", [],
         [("A", ⟨"big.bin", 4, "t", [[1, 2]], 2⟩)], true, 0⟩).fileTransfers =
      [("A", ⟨"big.bin", 4, "t", [[1, 2]], 2⟩)]
    ∧ ([("A", (⟨"big.bin", 4, "t", [[1, 2]], 2⟩ : Transfer))] :
        List (String × Transfer)) ≠ [] :=
  ⟨rfl, by decide⟩

/-- Witness for C8: half a file (2 of 4 bytes) delivered with no
`file-end` produces no file-received event, and SimpleNetworking's
disconnect empties the buffers. -/
theorem no_partial_file_witness :
    ((processMessages [] "A"
        [WireMsg.fileStart "f" 4 "t", WireMsg.chunk [1, 2]]).2.all
      (fun e => !(e.isFileReceived)) = true)
    ∧ (SNState.disconnect
        ⟨true, some "me", [],
         [("A", (⟨"f", 4, "t", [[1, 2]], 2⟩ : Transfer))], 0⟩).fileTransfers
      = [] := by
  have h := no_partial_file "A"
    [WireMsg.fileStart "f" 4 "t", WireMsg.chunk [1, 2]] (by decide) []
    ⟨true, some "me", [], [("A", ⟨"f", 4, "t", [[1, 2]], 2⟩)], 0⟩
  refine ⟨?_, h.2⟩
  rw [List.all_eq_true]
  intro e he
  simp [h.1 e he]

end LocalShare
